import Mathlib

/-
Verification development for the sos `vmcore_report` core.

The definitions below are a shallow embedding of the Python sources
`sos/vmcore_report/emitters/registry.py` (emitter discovery, the two
built-in enumerators, and the `run_scope` execution engine) and
`sos/vmcore_report/__init__.py` (plugin selection in `_discover_plugins`
and the plugin-run loop `_run_plugins`).

Modelling conventions:
  - Python exceptions are modelled with `Except`/`Option`: a fallible
    Python call becomes a value of type `Except ε α`, and a
    `try/except` block becomes a `match` on that value.
  - The external drgn introspection session (`prog`) is modelled by a
    `Session` record whose fields capture the observable outcomes of the
    drgn helper calls a given strategy performs (success with a list of
    values, or failure).
  - Machine integers read from the vmcore are modelled as `Int`.
  - Brace characters inside string literals are written with the
    escapes \x7b and \x7d.
-/

namespace VmcoreReport

/-- A key-set yielded by an enumerator: a finite mapping from placeholder
name to integer value (a Python dict such as one binding "pid"). -/
abbrev KeySet := List (String × Int)

/-- Observable outcomes of the drgn helper calls made by the two built-in
enumerators of `registry.py` against one introspection session (`prog`).
Each `Except Unit` failure stands for a raised Python exception, and each
`Option Int` failure for a raised read; `none`/`.error ()` means the
corresponding call (or the import providing it) raised. -/
structure Session where
  /-- Outcome of `int(prog["pid_max"].value_())`; `none` when that read
  raises, in which case the code keeps the default 1,000,000. -/
  pidMaxRead : Option Int
  /-- Strategy 1 of `enumerate_pids`: the coerced candidates obtained from
  iterating `for_each_pid(prog)`.  `.error ()` when the import of
  `for_each_pid` or the iteration itself raises; inside a successful
  iteration, each element is the result of coercing one yielded object to
  `int` (`none` when every coercion attempt for that object raises). -/
  forEachPidItems : Except Unit (List (Option Int))
  /-- Strategy 2 of `enumerate_pids`: the per-task `int(task.pid.value_())`
  reads obtained from iterating `for_each_task(prog)`.  `.error ()` when
  the import or the iteration raises; `none` elements are tasks whose pid
  read raises (the loop `continue`s past them). -/
  forEachTaskItems : Except Unit (List (Option Int))
  /-- Strategy 3 of `enumerate_pids`: the pids read during the defensive
  `init_task` list traversal (the iteration cap and the `break` conditions
  only decide where this list ends).  `none` when `prog["init_task"]`
  itself raises, which makes the function return the empty sequence. -/
  initTaskItems : Option (List Int)
  /-- `enumerate_cpus` preferred path: `.error ()` when importing
  `cpumask_to_cpus` or reading `prog["cpu_online_mask"]` raises;
  `.ok (cpus, completed)` gives the cpu ids yielded while iterating
  `cpumask_to_cpus(mask)` and whether the iteration ran to completion
  (when it raises midway the already-yielded ids remain delivered and the
  function falls through to the fallback). -/
  cpuMaskCpus : Except Unit (List Int × Bool)
  /-- Outcome of `int(prog["nr_cpu_ids"].value_())` in `_nr_cpu_ids`;
  `none` when the read raises. -/
  nrCpuIds : Option Int

/-- Default used for `pid_max` in `enumerate_pids` when the symbol read
raises (`pid_max = 1_000_000` in the source). -/
def defaultPidMax : Int := 1000000

/-- The `pid_max` bound actually used by strategy 1 of `enumerate_pids`. -/
def pidMax (s : Session) : Int :=
  s.pidMaxRead.getD defaultPidMax

/-- Insert a value into an ascending duplicate-free list, keeping it
ascending and duplicate-free. -/
def insertSorted (a : Int) : List Int → List Int
  | [] => [a]
  | b :: l =>
      if a < b then a :: b :: l
      else if a = b then b :: l
      else b :: insertSorted a l

/-- Python `sorted(set(...))` over a candidate list: the ascending
enumeration of its distinct values.  Both strategies of `enumerate_pids`
yield their results this way (`for pid in sorted(pset): yield ...`). -/
def sortedPids (l : List Int) : List Int :=
  l.foldr insertSorted []

/-- The candidates that strategy 1 of `enumerate_pids` admits into `pset`:
coercible to int and in the sane range `0 < cand <= pid_max`. -/
def strategy1Cands (s : Session) : List Int :=
  match s.forEachPidItems with
  | .error _ => []
  | .ok items =>
      (items.filterMap id).filter (fun c => decide (0 < c ∧ c ≤ pidMax s))

/-- Strategy 2 of `enumerate_pids` (`for_each_task` fallback): collect the
successfully read task pids that are `> 0`, deduplicated and sorted.
Returns `none` when the import or the iteration raises. -/
def strategy2Pids (s : Session) : Option (List Int) :=
  match s.forEachTaskItems with
  | .error _ => none
  | .ok items =>
      some (sortedPids ((items.filterMap id).filter (fun p => decide (0 < p))))

/-- Strategy 3 of `enumerate_pids` (`init_task` traversal): the pids seen
during the traversal that are `> 0`, deduplicated and sorted; the empty
sequence when `prog["init_task"]` raises. -/
def strategy3Pids (s : Session) : List Int :=
  match s.initTaskItems with
  | none => []
  | some pids => sortedPids (pids.filter (fun p => decide (0 < p)))

/-- The pid sequence produced by `enumerate_pids` in `registry.py`
(each element is wrapped as the key-set `{"pid": pid}` at yield time, see
`enumerate_pids`).  Strategy 1 is used only when it admitted at least one
sane candidate (`if pset:`); otherwise the code falls through to strategy
2, and from there to strategy 3 only when strategy 2 raises. -/
def enumeratePidInts (s : Session) : List Int :=
  if strategy1Cands s ≠ [] then sortedPids (strategy1Cands s)
  else
    match strategy2Pids s with
    | some pids => pids
    | none => strategy3Pids s

/-- `enumerate_pids(prog)`: yields `{"pid": pid}` for each pid,
best-effort, degrading through the three strategies. -/
def enumerate_pids (s : Session) : List KeySet :=
  (enumeratePidInts s).map (fun p => [("pid", p)])

/-- `_nr_cpu_ids(prog)`: `int(prog["nr_cpu_ids"].value_())`, or `None`
when the read raises. -/
def _nr_cpu_ids (s : Session) : Option Int :=
  s.nrCpuIds

/-- The fallback branch of `enumerate_cpus`: `range(nr_cpu_ids)` when that
count is a positive int, else the single cpu 0. -/
def cpusFallback (s : Session) : List Int :=
  match _nr_cpu_ids s with
  | some n => if 0 < n then (List.range n.toNat).map Int.ofNat else [0]
  | none => [0]

/-- The cpu id sequence produced by `enumerate_cpus`: the online-mask cpus
when that path completes; when the mask path raises midway the
already-yielded ids are followed by the fallback; when it raises before
yielding, just the fallback. -/
def enumerateCpuInts (s : Session) : List Int :=
  match s.cpuMaskCpus with
  | .ok (cpus, true) => cpus
  | .ok (cpus, false) => cpus ++ cpusFallback s
  | .error _ => cpusFallback s

/-- `enumerate_cpus(prog)`: yields `{"cpu": cpu_id}` for each cpu,
best-effort. -/
def enumerate_cpus (s : Session) : List KeySet :=
  (enumerateCpuInts s).map (fun c => [("cpu", c)])

/-- The opening brace character. -/
def lbrace : Char := Char.ofNat 123

/-- The closing brace character. -/
def rbrace : Char := Char.ofNat 125

/-- A single-quote (apostrophe) character as a string, used in the
missing-enumerator stub message of `run_scope`. -/
def squote : String := String.singleton (Char.ofNat 39)

/-- Python `c in s` for a single character: membership test on the
string's characters. -/
def containsChar (s : String) (c : Char) : Bool :=
  s.data.any (fun d => d == c)

/-- Python `s.replace(old, new)` for one-character old and new strings:
replace every occurrence of the character. -/
def replaceChar (s : String) (old new : Char) : String :=
  String.mk (s.data.map (fun d => if d == old then new else d))

/-- `template.replace("\x7b", "_").replace("\x7d", "_")`: the sanitization
`run_scope` applies to a path template when it cannot be rendered. -/
def replaceBraces (p : String) : String :=
  replaceChar (replaceChar p lbrace '_') rbrace '_'

/-- An emitter body: `produce(prog)` or `produce(prog, **keys)`.  A body
either returns text or raises; a raise is modelled as `.error msg` where
`msg` is the `str(e)` of the exception.  Fixed-path bodies are invoked
with the empty key-set. -/
abbrev EmitterBody := Session → KeySet → Except String String

/-- The frozen `Emitter` dataclass of `registry.py`: fixed path or
template, `None` for fixed else the enumerator name, and the body. -/
structure Emitter where
  path : String
  enumerator : Option String
  func : EmitterBody

/-- A top-level attribute of an emitter module, as inspected by
`_collect_emitters_from_module` via `vars(mod)`: whether the object is
callable, its `_emit_path` attribute when present, its
`_emit_enumerator` attribute, and the callable itself. -/
structure ModuleAttr where
  isCallable : Bool
  emitPath : Option String
  emitEnumerator : Option String
  func : EmitterBody

/-- The `emits(path)` decorator: annotate a callable as a fixed-path
emitter (`_emit_path = path`, `_emit_enumerator = None`). -/
def emits (path : String) (fn : EmitterBody) : ModuleAttr :=
  ⟨true, some path, none, fn⟩

/-- The `emits_many(path_template, enumerator)` decorator: annotate a
callable as a templated-path emitter. -/
def emits_many (path_template : String) (enumName : String)
    (fn : EmitterBody) : ModuleAttr :=
  ⟨true, some path_template, some enumName, fn⟩

/-- One submodule under a scope package: `.error ()` when importing it
raises (such a module is skipped by `_iter_submodules`), `.ok attrs` when
it imports with the given top-level attributes. -/
abbrev ModuleImport := Except Unit (List ModuleAttr)

/-- A scope package as seen by `_iter_submodules`: `none` when importing
the package itself raises or it has no `__path__` (no submodule is
yielded), otherwise the ordered list of its submodules. -/
abbrev Package := Option (List ModuleImport)

/-- `_iter_submodules(pkg_name)`: yield the successfully imported
submodules, silently skipping each one whose import raises. -/
def _iter_submodules (pkg : Package) : List (List ModuleAttr) :=
  match pkg with
  | none => []
  | some mods => mods.filterMap Except.toOption

/-- `_collect_emitters_from_module(mod)`: every top-level callable bearing
an `_emit_path` attribute becomes an `Emitter`. -/
def _collect_emitters_from_module (mod : List ModuleAttr) : List Emitter :=
  mod.filterMap (fun o =>
    if o.isCallable then
      o.emitPath.map (fun p => Emitter.mk p o.emitEnumerator o.func)
    else none)

/-- The import environment: what importing the package
`sos.vmcore_report.emitters.{scope}` finds for each scope string. -/
abbrev ImportEnv := String → Package

/-- `list_emitters(scope)`: raise `ValueError(f"invalid scope: {scope}")`
unless the scope is one of proc, sys, commands; otherwise concatenate the
emitters collected from each importable submodule of the scope package. -/
def list_emitters (env : ImportEnv) (scope : String) :
    Except String (List Emitter) :=
  if scope = "proc" ∨ scope = "sys" ∨ scope = "commands" then
    .ok ((_iter_submodules (env scope)).flatMap _collect_emitters_from_module)
  else
    .error ("invalid scope: " ++ scope)

/-- An enumerator table: an association of names to enumerators, as the
module-level dict `_ENUMS` of `registry.py`. -/
abbrev EnumTable := List (String × (Session → List KeySet))

/-- The built-in enumerator table `_ENUMS` (the names referenced by
`@emits_many`). -/
def _ENUMS : EnumTable :=
  [("enumerate_pids", enumerate_pids), ("enumerate_cpus", enumerate_cpus)]

/-- `_ENUMS.get(name)`: dictionary lookup in an enumerator table. -/
def lookupEnum (enums : EnumTable) (name : String) :
    Option (Session → List KeySet) :=
  (enums.find? (fun e => e.1 == name)).map (fun e => e.2)

/-- `_format_stub(reason)`: the stub content written for a degraded
producer. -/
def _format_stub (reason : String) : String :=
  "# vmcore-report: stub (not reconstructable from vmcore) - " ++ reason
    ++ "\n"

/-- Split a template at the next closing brace: returns the field name
and the remaining characters, or `none` (a format error) when no closing
brace follows. -/
def splitField : List Char → Option (List Char × List Char)
  | [] => none
  | c :: rest =>
    if c = rbrace then some ([], rest)
    else (splitField rest).map (fun nr => (c :: nr.1, nr.2))

/-- Dictionary lookup of a placeholder name in a key-set. -/
def lookupKey (keys : KeySet) (k : String) : Option Int :=
  (keys.find? (fun e => e.1 == k)).map (fun e => e.2)

/-- Model of Python `template.format(**keys)` for the simple named
integer fields used by emitter path templates: substitute each
brace-delimited field from the key-set; a field whose name is absent
(KeyError) or a stray brace (ValueError) is a format failure, modelled
as `none`.  The fuel argument bounds the recursion and is never
exhausted when it starts above the character count. -/
def formatChars (keys : KeySet) : Nat → List Char → Option (List Char)
  | 0, _ => none
  | _ + 1, [] => some []
  | fuel + 1, c :: rest =>
    if c = lbrace then
      match splitField rest with
      | none => none
      | some (name, rest2) =>
        match lookupKey keys (String.mk name) with
        | none => none
        | some v =>
          (formatChars keys fuel rest2).map
            (fun t => (toString v).toList ++ t)
    else if c = rbrace then none
    else (formatChars keys fuel rest).map (fun t => c :: t)

/-- `template.format(**keys)` as a fallible operation on strings. -/
def formatTemplate (template : String) (keys : KeySet) : Option String :=
  (formatChars keys (template.length + 1) template.toList).map String.mk

/-- `_safe_format_path(template, keys)`: render the template, degrading to
the brace-sanitized literal path when formatting raises. -/
def _safe_format_path (template : String) (keys : KeySet) : String :=
  match formatTemplate template keys with
  | some p => p
  | none => replaceBraces template

/-- The missing-enumerator stub reason of `run_scope`. -/
def missingEnumMsg (name : String) : String :=
  "enumerator " ++ squote ++ name ++ squote ++ " not found"

/-- The one record `run_scope` appends for one enumerated key-set of a
templated emitter: the rendered path with either the body's text or, when
the body raises, the emitter-error stub. -/
def keyRecord (s : Session) (em : Emitter) (keys : KeySet) :
    String × String :=
  let path := _safe_format_path em.path keys
  match em.func s keys with
  | .ok body => (path, body)
  | .error e => (path, _format_stub ("emitter error: " ++ e))

/-- The fixed-path branch of the `run_scope` loop body: invoke the body
once; a raise is caught by the outer handler, which appends one stub at
the literal path (brace-sanitized only when the path contains an opening
brace: `em.path if "\x7b" not in em.path else ...`). -/
def fixedRun (s : Session) (em : Emitter) : List (String × String) :=
  match em.func s [] with
  | .ok body => [(em.path, body)]
  | .error e =>
      let path :=
        if containsChar em.path lbrace then replaceBraces em.path
        else em.path
      [(path, _format_stub ("emitter failure: " ++ e))]

/-- The records the `run_scope` loop body appends for one discovered
emitter.  `if em.enumerator:` is a Python truthiness test, so an emitter
whose enumerator field is `None` or the empty string takes the fixed-path
branch. -/
def runEmitter (enums : EnumTable) (s : Session) (em : Emitter) :
    List (String × String) :=
  match em.enumerator with
  | none => fixedRun s em
  | some name =>
      if name = "" then fixedRun s em
      else
        match lookupEnum enums name with
        | none =>
            [(replaceBraces em.path, _format_stub (missingEnumMsg name))]
        | some f => (f s).map (keyRecord s em)

/-- `run_scope(scope, prog)`: resolve the scope's emitters (a ValueError
from `list_emitters` propagates) and append each emitter's records in
discovery order. -/
def run_scope (env : ImportEnv) (scope : String) (s : Session) :
    Except String (List (String × String)) :=
  match list_emitters env scope with
  | .error e => .error e
  | .ok ems => .ok (ems.flatMap (runEmitter _ENUMS s))

/-- The number of records `run_scope` owes one emitter: one for a
fixed-path (or falsy-enumerator, or missing-enumerator) emitter, and one
per enumerated key-set for a templated emitter whose enumerator is in the
table. -/
def emitterCount (enums : EnumTable) (s : Session) (em : Emitter) : Nat :=
  match em.enumerator with
  | none => 1
  | some name =>
      if name = "" then 1
      else
        match lookupEnum enums name with
        | none => 1
        | some f => (f s).length

/-- The selection-relevant attributes of a discovered plugin class
(`DrgnPluginBase` subclass): its `name()`, and its `experimental` and
`default_enabled` class attributes (defaulting to `False` and `True`). -/
structure PluginCls where
  name : String
  experimental : Bool
  default_enabled : Bool

/-- The user-supplied selection options of `SoSVmcoreReport`
(`--only-plugins`, the legacy `--plugins` alias, `--skip-plugins`,
`--enable-plugins`, `--experimental`). -/
structure VmcoreOpts where
  only_plugins : List String
  plugins : List String
  skip_plugins : List String
  enable_plugins : List String
  experimental : Bool

/-- `p.split(".")[0]`: the plugin-name part of a possibly dotted option,
i.e. the characters before the first dot. -/
def headName (p : String) : String :=
  String.mk (p.data.takeWhile (fun c => c != '.'))

/-- The `only_set` computed by `_discover_plugins`: names from
`--only-plugins` merged with the legacy `--plugins` alias. -/
def only_set (o : VmcoreOpts) : List String :=
  (o.only_plugins ++ o.plugins).map headName

/-- The `skip_set` computed by `_discover_plugins`. -/
def skip_set (o : VmcoreOpts) : List String :=
  o.skip_plugins.map headName

/-- The `enable_set` computed by `_discover_plugins`. -/
def enable_set (o : VmcoreOpts) : List String :=
  o.enable_plugins.map headName

/-- The selection state a discovered plugin transitions to. -/
inductive Selection where
  | selected
  | skipped (reason : String)
deriving DecidableEq

/-- The per-plugin selection logic of `_discover_plugins`, gate by gate in
source order: the only-filter, the skip-filter, experimental gating
(overridden by explicit membership in `enable_set` or `only_set`), and
optional (`default_enabled = False`) gating with the same override. -/
def selectPlugin (o : VmcoreOpts) (c : PluginCls) : Selection :=
  if only_set o ≠ [] ∧ c.name ∉ only_set o then .skipped "not specified"
  else if c.name ∈ skip_set o then .skipped "skipped"
  else if c.experimental = true ∧ o.experimental = false
      ∧ c.name ∉ enable_set o ∧ c.name ∉ only_set o then
    .skipped "experimental"
  else if c.default_enabled = false
      ∧ c.name ∉ enable_set o ∧ c.name ∉ only_set o then
    .skipped "optional"
  else .selected

/-- The discovery loop of `_discover_plugins` over the scope's plugin
modules: a module whose import raises is skipped with a warning, a module
exporting no `DrgnPluginBase` subclass contributes nothing, and otherwise
its first exported class goes through `selectPlugin`, landing in
`_loaded_plugins` or `_skipped_plugins`.  (The retired-module filtering
and the unknown-name warnings of the source are log-only and not
modelled.) -/
def _discover_plugins (o : VmcoreOpts)
    (modules : List (Except Unit (List PluginCls))) :
    List PluginCls × List (String × String) :=
  modules.foldl
    (fun acc m =>
      match m with
      | .error _ => acc
      | .ok [] => acc
      | .ok (cls :: _) =>
          match selectPlugin o cls with
          | .selected => (acc.1 ++ [cls], acc.2)
          | .skipped r => (acc.1, acc.2 ++ [(cls.name, r)]))
    ([], [])

/-- A raised Python `Exception` as distinguished by the handlers of
`_run_plugins`: an `OSError` carrying an errno, or any other
`Exception`. -/
inductive PyExc where
  | osError (errno : Int) (msg : String)
  | other (msg : String)
deriving DecidableEq

/-- A raised Python `BaseException`: an `Exception`, or
`KeyboardInterrupt`, which is deliberately not an `Exception` subclass in
Python and is re-raised by `_run_plugins` (user cancellation). -/
inductive PyBaseExc where
  | exc (e : PyExc)
  | keyboardInterrupt
deriving DecidableEq

/-- `fatal_fs_errors = (errno.ENOSPC, errno.EROFS)`; on Linux these errno
values are 28 and 30. -/
def fatal_fs_errors : List Int := [28, 30]

/-- The runtime behaviour of one loaded plugin against the run's fixed
drgn program and archive: the outcome of `check_enabled(prog)`, and for
`setup(prog)` and `collect(prog)` the records each writes to the archive
before returning or raising, together with the raise when there is
one. -/
structure PluginRun where
  name : String
  check_enabled : Except PyBaseExc Bool
  setupRun : List (String × String) × Option PyBaseExc
  collectRun : List (String × String) × Option PyBaseExc

/-- How the `_run_plugins` loop ends: normally, via `os._exit(code)` on a
fatal filesystem error, or by re-raising `KeyboardInterrupt`. -/
inductive RunStatus where
  | finished
  | fatalExit (code : Nat)
  | interrupted
deriving DecidableEq

/-- The plugin-run loop of `_run_plugins`, threading the archive contents
(the already-written records).  Per plugin: a `check_enabled` returning
false or raising an `Exception` marks it inactive and the loop continues
(the inner handler is `except Exception`, so a `KeyboardInterrupt` there
reaches the outer handler and is re-raised); a raise from `setup` or
`collect` is re-raised for `KeyboardInterrupt`, terminates the process
with `os._exit(1)` for an `OSError` whose errno is in
`fatal_fs_errors` (the archive written so far stays in place), and is
logged for any other `Exception`, after which the loop continues with
the next plugin. -/
def _run_plugins :
    List PluginRun → List (String × String) →
      List (String × String) × RunStatus
  | [], acc => (acc, .finished)
  | p :: rest, acc =>
    match p.check_enabled with
    | .error .keyboardInterrupt => (acc, .interrupted)
    | .error (.exc _) => _run_plugins rest acc
    | .ok false => _run_plugins rest acc
    | .ok true =>
      match p.setupRun with
      | (r1, some .keyboardInterrupt) => (acc ++ r1, .interrupted)
      | (r1, some (.exc (.osError en _))) =>
          if en ∈ fatal_fs_errors then (acc ++ r1, .fatalExit 1)
          else _run_plugins rest (acc ++ r1)
      | (r1, some (.exc (.other _))) => _run_plugins rest (acc ++ r1)
      | (r1, none) =>
        match p.collectRun with
        | (r2, some .keyboardInterrupt) => (acc ++ r1 ++ r2, .interrupted)
        | (r2, some (.exc (.osError en _))) =>
            if en ∈ fatal_fs_errors then (acc ++ r1 ++ r2, .fatalExit 1)
            else _run_plugins rest (acc ++ r1 ++ r2)
        | (r2, some (.exc (.other _))) => _run_plugins rest (acc ++ r1 ++ r2)
        | (r2, none) => _run_plugins rest (acc ++ r1 ++ r2)

/-- The sentinel that opens every stub's content. -/
def stubSentinel : String := "# vmcore-report: stub"

/-- Proposition that a string begins with the stub sentinel. -/
def hasStubSentinel (s : String) : Prop :=
  ∃ t : List Char, s.data = stubSentinel.data ++ t

theorem mem_insertSorted {b a : Int} {l : List Int} :
    b ∈ insertSorted a l ↔ b = a ∨ b ∈ l := by
  induction l with
  | nil => simp [insertSorted]
  | cons c l ih =>
      unfold insertSorted
      by_cases h1 : a < c
      · simp [h1]
      · by_cases h2 : a = c
        · subst h2
          simp [h1]
        · simp [h1, h2, ih]
          tauto

theorem sorted_insertSorted {a : Int} {l : List Int}
    (h : l.Sorted (· < ·)) : (insertSorted a l).Sorted (· < ·) := by
  induction l with
  | nil => simp [insertSorted]
  | cons c l ih =>
      rw [List.sorted_cons] at h
      obtain ⟨hc, hl⟩ := h
      unfold insertSorted
      by_cases h1 : a < c
      · rw [if_pos h1, List.sorted_cons]
        refine ⟨?_, ?_⟩
        · intro x hx
          rcases List.mem_cons.mp hx with rfl | hx
          · exact h1
          · exact lt_trans h1 (hc x hx)
        · rw [List.sorted_cons]
          exact ⟨hc, hl⟩
      · by_cases h2 : a = c
        · rw [if_neg h1, if_pos h2, List.sorted_cons]
          exact ⟨hc, hl⟩
        · rw [if_neg h1, if_neg h2, List.sorted_cons]
          refine ⟨?_, ih hl⟩
          intro x hx
          rcases mem_insertSorted.mp hx with rfl | hx
          · omega
          · exact hc x hx

theorem sortedPids_sorted (l : List Int) : (sortedPids l).Sorted (· < ·) := by
  induction l with
  | nil => simp [sortedPids]
  | cons a l ih => exact sorted_insertSorted ih

theorem mem_sortedPids {a : Int} {l : List Int} :
    a ∈ sortedPids l ↔ a ∈ l := by
  induction l with
  | nil => simp [sortedPids]
  | cons b l ih =>
      show a ∈ insertSorted b (sortedPids l) ↔ _
      rw [mem_insertSorted, ih, List.mem_cons]

theorem format_stub_sentinel (reason : String) :
    hasStubSentinel (_format_stub reason) := by
  refine ⟨(" (not reconstructable from vmcore) - " : String).data
    ++ reason.data ++ ("\n" : String).data, ?_⟩
  have h : ("# vmcore-report: stub (not reconstructable from vmcore) - " :
      String).data
      = stubSentinel.data
        ++ (" (not reconstructable from vmcore) - " : String).data := by
    decide
  show ("# vmcore-report: stub (not reconstructable from vmcore) - "
      ++ reason ++ "\n").data = _
  rw [String.data_append, String.data_append, h]
  simp only [List.append_assoc]

theorem not_sentinel_of_short (s : String)
    (h : s.length < stubSentinel.length) : ¬ hasStubSentinel s := by
  rintro ⟨t, ht⟩
  have hlen := congrArg List.length ht
  rw [List.length_append] at hlen
  have h1 : s.length = s.data.length := rfl
  have h2 : stubSentinel.length = stubSentinel.data.length := rfl
  omega

theorem fixedRun_length (s : Session) (em : Emitter) :
    (fixedRun s em).length = 1 := by
  unfold fixedRun
  cases em.func s [] <;> simp

theorem runEmitter_length (enums : EnumTable) (s : Session) (em : Emitter) :
    (runEmitter enums s em).length = emitterCount enums s em := by
  unfold runEmitter emitterCount
  cases em.enumerator with
  | none => exact fixedRun_length s em
  | some name =>
      by_cases hname : name = ""
      · simp [hname, fixedRun_length]
      · cases hl : lookupEnum enums name with
        | none => simp [hname, hl]
        | some f => simp [hname, hl]

/-- A session on which every drgn helper call raises. -/
def session0 : Session :=
  ⟨none, .error (), .error (), none, .error (), none⟩

/-- An import environment in which every scope package fails to import. -/
def emptyEnv : ImportEnv := fun _ => none

/-- Claim C10: for every scope value outside the fixed set proc, sys,
commands, `list_emitters` raises a ValueError naming the invalid scope
(and hence `run_scope` raises for such a scope); for every scope in that
set it returns a list without raising. -/
theorem claim_C10_scope_validation (env : ImportEnv) (scope : String)
    (s : Session) :
    (scope ≠ "proc" → scope ≠ "sys" → scope ≠ "commands" →
      list_emitters env scope = .error ("invalid scope: " ++ scope) ∧
      run_scope env scope s = .error ("invalid scope: " ++ scope)) ∧
    (scope = "proc" ∨ scope = "sys" ∨ scope = "commands" →
      ∃ ems outs, list_emitters env scope = .ok ems ∧
        run_scope env scope s = .ok outs) := by
  constructor
  · intro h1 h2 h3
    have hv : ¬ (scope = "proc" ∨ scope = "sys" ∨ scope = "commands") := by
      rintro (h | h | h)
      · exact h1 h
      · exact h2 h
      · exact h3 h
    refine ⟨by simp [list_emitters, hv], ?_⟩
    simp [run_scope, list_emitters, hv]
  · intro hv
    refine ⟨(_iter_submodules (env scope)).flatMap
        _collect_emitters_from_module,
      ((_iter_submodules (env scope)).flatMap
        _collect_emitters_from_module).flatMap (runEmitter _ENUMS s),
      ?_, ?_⟩
    · simp [list_emitters, hv]
    · simp [run_scope, list_emitters, hv]

/-- Witness for C10 at the invalid scope "bogus" and the valid scope
"proc". -/
theorem claim_C10_witness :
    (list_emitters emptyEnv "bogus" = .error ("invalid scope: " ++ "bogus") ∧
      run_scope emptyEnv "bogus" session0 =
        .error ("invalid scope: " ++ "bogus")) ∧
    (∃ ems outs, list_emitters emptyEnv "proc" = .ok ems ∧
      run_scope emptyEnv "proc" session0 = .ok outs) := by
  constructor
  · exact (claim_C10_scope_validation emptyEnv "bogus" session0).1
      (by decide) (by decide) (by decide)
  · exact (claim_C10_scope_validation emptyEnv "proc" session0).2
      (Or.inl rfl)

/-- Claim C2: a plugin whose name is in the only set is Selected unless
its name is also in the skip set, in which case it is Skipped; skip
dominates only, and only-membership overrides both the experimental gate
and the default-enabled gate (the plugin's flags are arbitrary here). -/
theorem claim_C2_only_skip (o : VmcoreOpts) (c : PluginCls)
    (h : c.name ∈ only_set o) :
    selectPlugin o c =
      if c.name ∈ skip_set o then .skipped "skipped" else .selected := by
  have h1 : ¬ (only_set o ≠ [] ∧ c.name ∉ only_set o) := by
    rintro ⟨_, hn⟩
    exact hn h
  by_cases hs : c.name ∈ skip_set o
  · simp [selectPlugin, h1, hs]
  · have h3 : ¬ (c.experimental = true ∧ o.experimental = false
        ∧ c.name ∉ enable_set o ∧ c.name ∉ only_set o) := by
      rintro ⟨_, _, _, hn⟩
      exact hn h
    have h4 : ¬ (c.default_enabled = false
        ∧ c.name ∉ enable_set o ∧ c.name ∉ only_set o) := by
      rintro ⟨_, _, hn⟩
      exact hn h
    simp [selectPlugin, h1, hs, h3, h4]

/-- Options naming plugin a (through a dotted legacy alias) in only and
plugin b in both only and skip. -/
def optsC2 : VmcoreOpts := ⟨["b"], ["a.sub"], ["b"], [], false⟩

/-- An experimental, default-disabled plugin named a. -/
def clsA : PluginCls := ⟨"a", true, false⟩

/-- A plugin named b. -/
def clsB : PluginCls := ⟨"b", false, true⟩

/-- Witness for C2: plugin a (named in only via the legacy alias) is
selected even though it is experimental and default-disabled; plugin b
(in only and skip) is skipped. -/
theorem claim_C2_witness :
    (selectPlugin optsC2 clsA =
      if clsA.name ∈ skip_set optsC2 then .skipped "skipped"
      else .selected) ∧
    (selectPlugin optsC2 clsB =
      if clsB.name ∈ skip_set optsC2 then .skipped "skipped"
      else .selected) := by
  constructor
  · exact claim_C2_only_skip optsC2 clsA (by decide)
  · exact claim_C2_only_skip optsC2 clsB (by decide)

/-- Selection options with plugin p skipped and nothing else set. -/
def optsC3 : VmcoreOpts := ⟨[], [], ["p"], [], false⟩

/-- An experimental plugin named p. -/
def clsP : PluginCls := ⟨"p", true, true⟩

/-- Counterexample to C3 as stated: an experimental plugin whose name is
in neither enable nor only, with the experimental flag unset, is skipped
with reason "skipped" (not "experimental") when its name is in the skip
set — so the reason is not "experimental" for all values of the other
selection inputs. -/
theorem claim_C3_counterexample :
    clsP.experimental = true ∧ optsC3.experimental = false ∧
    clsP.name ∉ enable_set optsC3 ∧ clsP.name ∉ only_set optsC3 ∧
    selectPlugin optsC3 clsP = .skipped "skipped" ∧
    Selection.skipped "skipped" ≠ Selection.skipped "experimental" := by
  decide

/-- Claim C3 (amended): a discovered experimental plugin is skipped with
reason "experimental" when the experimental flag is unset and its name is
in neither enable nor only, provided no higher-priority gate fires first:
the only set is empty and the name is not in the skip set. -/
theorem claim_C3_experimental_gate (o : VmcoreOpts) (c : PluginCls)
    (hexp : c.experimental = true) (hflag : o.experimental = false)
    (hen : c.name ∉ enable_set o) (honly : only_set o = [])
    (hskip : c.name ∉ skip_set o) :
    selectPlugin o c = .skipped "experimental" := by
  have honly2 : c.name ∉ only_set o := by
    rw [honly]
    exact List.not_mem_nil _
  have h1 : ¬ (only_set o ≠ [] ∧ c.name ∉ only_set o) := by
    rintro ⟨hne, _⟩
    exact hne honly
  simp [selectPlugin, h1, hskip, hexp, hflag, hen, honly2, honly]

/-- Selection options with nothing requested and the experimental flag
unset. -/
def optsC3w : VmcoreOpts := ⟨[], [], [], [], false⟩

/-- Witness for the amended C3: the experimental plugin p is skipped with
reason "experimental" when no other gate applies. -/
theorem claim_C3_witness :
    selectPlugin optsC3w clsP = .skipped "experimental" :=
  claim_C3_experimental_gate optsC3w clsP (by decide) (by decide)
    (by decide) (by decide) (by decide)

/-- Claim C5: each built-in enumerator is a total function of the
session: any internal failure degrades to the next cheaper strategy, and
when every strategy fails the result is the empty sequence (pids) or the
minimal single-cpu fallback (cpus). -/
theorem claim_C5_enumerators_degrade (s : Session) :
    (∀ items, s.forEachPidItems = .error () →
      s.forEachTaskItems = .ok items →
      enumeratePidInts s =
        sortedPids ((items.filterMap id).filter (fun p => decide (0 < p)))) ∧
    (s.forEachPidItems = .error () → s.forEachTaskItems = .error () →
      s.initTaskItems = none → enumerate_pids s = []) ∧
    (∀ n, s.cpuMaskCpus = .error () → s.nrCpuIds = some n → 0 < n →
      enumerateCpuInts s = (List.range n.toNat).map Int.ofNat) ∧
    (s.cpuMaskCpus = .error () → s.nrCpuIds = none →
      enumerate_cpus s = [[("cpu", 0)]]) := by
  refine ⟨?_, ?_, ?_, ?_⟩
  · intro items h1 h2
    simp [enumeratePidInts, strategy1Cands, strategy2Pids, h1, h2]
  · intro h1 h2 h3
    simp [enumerate_pids, enumeratePidInts, strategy1Cands, strategy2Pids,
      strategy3Pids, h1, h2, h3]
  · intro n h1 h2 h3
    simp [enumerateCpuInts, cpusFallback, _nr_cpu_ids, h1, h2, h3]
  · intro h1 h2
    simp [enumerate_cpus, enumerateCpuInts, cpusFallback, _nr_cpu_ids,
      h1, h2]

/-- A session on which only the for-each-task strategy works. -/
def sTask : Session :=
  ⟨none, .error (), .ok [some 7, none, some 3], none, .error (), some 2⟩

/-- Witness for C5: on a session where everything raises, the enumerators
still return (the empty pid sequence and the single-cpu fallback), and on
a session where only the task-list strategy works, the pid enumerator
degrades to it. -/
theorem claim_C5_witness :
    enumeratePidInts sTask = sortedPids
      (([some 7, none, some 3].filterMap id).filter
        (fun p => decide (0 < p))) ∧
    enumerate_pids session0 = [] ∧
    enumerate_cpus session0 = [[("cpu", 0)]] := by
  refine ⟨?_, ?_, ?_⟩
  · exact (claim_C5_enumerators_degrade sTask).1 [some 7, none, some 3]
      rfl rfl
  · exact (claim_C5_enumerators_degrade session0).2.1 rfl rfl rfl
  · exact (claim_C5_enumerators_degrade session0).2.2.2 rfl rfl


theorem mem_strategy1Cands {s : Session} {p : Int}
    (h : p ∈ strategy1Cands s) : 0 < p ∧ p ≤ pidMax s := by
  unfold strategy1Cands at h
  cases hfe : s.forEachPidItems with
  | error u =>
      rw [hfe] at h
      simp at h
  | ok items =>
      rw [hfe] at h
      have := List.of_mem_filter h
      simpa using this

theorem enumeratePidInts_cases (s : Session) :
    (strategy1Cands s ≠ [] ∧
      enumeratePidInts s = sortedPids (strategy1Cands s)) ∨
    (∃ items, s.forEachTaskItems = .ok items ∧
      enumeratePidInts s =
        sortedPids ((items.filterMap id).filter (fun p => decide (0 < p)))) ∨
    (∃ pids, s.initTaskItems = some pids ∧
      enumeratePidInts s =
        sortedPids (pids.filter (fun p => decide (0 < p)))) ∨
    enumeratePidInts s = [] := by
  unfold enumeratePidInts
  by_cases h1 : strategy1Cands s ≠ []
  · exact Or.inl ⟨h1, by rw [if_pos h1]⟩
  · rw [if_neg h1]
    right
    cases hft : s.forEachTaskItems with
    | ok items =>
        left
        exact ⟨items, rfl, by simp [strategy2Pids, hft]⟩
    | error u =>
        right
        have h2 : strategy2Pids s = none := by simp [strategy2Pids, hft]
        rw [h2]
        cases hit : s.initTaskItems with
        | none =>
            right
            simp [strategy3Pids, hit]
        | some pids =>
            left
            exact ⟨pids, rfl, by simp [strategy3Pids, hit]⟩

/-- Claim C4 (amended): for every session, `enumerate_pids` yields
key-sets whose pid values are pairwise distinct, strictly ascending, and
strictly positive under every strategy; the upper bound by the
session-reported pid-max (defaulting to 1000000 when unreadable) is
enforced only when the preferred for-each-pid strategy supplies the
result — the fallback strategies enforce positivity but no upper
bound. -/
theorem claim_C4_pid_enumeration (s : Session) :
    (enumeratePidInts s).Sorted (· < ·) ∧
    (∀ p ∈ enumeratePidInts s, 0 < p) ∧
    (strategy1Cands s ≠ [] → ∀ p ∈ enumeratePidInts s, p ≤ pidMax s) ∧
    enumerate_pids s = (enumeratePidInts s).map (fun p => [("pid", p)]) := by
  refine ⟨?_, ?_, ?_, rfl⟩
  · rcases enumeratePidInts_cases s with ⟨_, h⟩ | ⟨items, _, h⟩ |
      ⟨pids, _, h⟩ | h
    · rw [h]
      exact sortedPids_sorted _
    · rw [h]
      exact sortedPids_sorted _
    · rw [h]
      exact sortedPids_sorted _
    · rw [h]
      simp
  · intro p hp
    rcases enumeratePidInts_cases s with ⟨_, h⟩ | ⟨items, _, h⟩ |
      ⟨pids, _, h⟩ | h
    · rw [h] at hp
      exact (mem_strategy1Cands (mem_sortedPids.mp hp)).1
    · rw [h] at hp
      have := List.of_mem_filter (mem_sortedPids.mp hp)
      simpa using this
    · rw [h] at hp
      have := List.of_mem_filter (mem_sortedPids.mp hp)
      simpa using this
    · rw [h] at hp
      simp at hp
  · intro h1 p hp
    unfold enumeratePidInts at hp
    rw [if_pos h1] at hp
    exact (mem_strategy1Cands (mem_sortedPids.mp hp)).2

/-- A session on which the preferred pid strategy raises and the
task-list fallback reports a pid far above the readable pid-max. -/
def sOverMax : Session :=
  ⟨some 1000000, .error (), .ok [some 2000000], none, .error (), none⟩

/-- Counterexample to C4 as stated: on `sOverMax` the enumerator falls
back to the for-each-task strategy, which applies no pid-max bound: the
yielded pid 2000000 exceeds the session-reported maximum 1000000. -/
theorem claim_C4_counterexample :
    enumeratePidInts sOverMax = [2000000] ∧
    pidMax sOverMax = 1000000 ∧
    ¬ (∀ p ∈ enumeratePidInts sOverMax, p ≤ pidMax sOverMax) := by
  refine ⟨by decide, rfl, ?_⟩
  intro h
  have h2 := h 2000000 (by decide)
  have h3 : pidMax sOverMax = 1000000 := rfl
  rw [h3] at h2
  omega

/-- A session on which the preferred pid strategy yields sane pids. -/
def sPid : Session :=
  ⟨none, .ok [some 5, some 3, some 5], .error (), none, .error (), none⟩

/-- Witness for the amended C4 at a session where the preferred strategy
succeeds, so the pid-max bound applies. -/
theorem claim_C4_witness :
    (enumeratePidInts sPid).Sorted (· < ·) ∧
    (∀ p ∈ enumeratePidInts sPid, 0 < p) ∧
    (∀ p ∈ enumeratePidInts sPid, p ≤ pidMax sPid) := by
  obtain ⟨h1, h2, h3, _⟩ := claim_C4_pid_enumeration sPid
  exact ⟨h1, h2, h3 (by decide)⟩

theorem mem_fixedRun {s : Session} {em : Emitter} {r : String × String}
    (hr : r ∈ fixedRun s em) :
    hasStubSentinel r.2 ∨ em.func s [] = .ok r.2 := by
  unfold fixedRun at hr
  cases h : em.func s [] with
  | ok body =>
      rw [h] at hr
      simp at hr
      subst hr
      right
      rfl
  | error e =>
      rw [h] at hr
      simp at hr
      subst hr
      left
      exact format_stub_sentinel _

theorem runEmitter_missing {enums : EnumTable} {s : Session} {p name fn}
    (hne : name ≠ "") (hm : lookupEnum enums name = none) :
    runEmitter enums s ⟨p, some name, fn⟩ =
      [(replaceBraces p, _format_stub (missingEnumMsg name))] := by
  simp [runEmitter, hne, hm]

theorem runEmitter_templated {enums : EnumTable} {s : Session} {p name fn f}
    (hne : name ≠ "") (hf : lookupEnum enums name = some f) :
    runEmitter enums s ⟨p, some name, fn⟩ =
      (f s).map (keyRecord s ⟨p, some name, fn⟩) := by
  simp [runEmitter, hne, hf]

theorem keyRecord_stub_or_ok (s : Session) (em : Emitter) (ks : KeySet) :
    hasStubSentinel (keyRecord s em ks).2 ∨
      em.func s ks = .ok (keyRecord s em ks).2 := by
  cases h : em.func s ks with
  | ok body =>
      right
      simp [keyRecord, h]
  | error e =>
      left
      simp only [keyRecord, h]
      exact format_stub_sentinel _

/-- Claim C7: every stub record produced by the run-scope engine (failed
fixed body, failed key, or missing enumerator) has content beginning with
the sentinel "# vmcore-report: stub": every produced record is either the
body's own successful output or sentinel-prefixed; an emitter whose body
always raises yields only sentinel-prefixed records; and run_scope
returns normally on every valid scope. -/
theorem claim_C7_stub_sentinel :
    (∀ reason, hasStubSentinel (_format_stub reason)) ∧
    (∀ (s : Session) (em : Emitter) (r : String × String),
      r ∈ runEmitter _ENUMS s em →
      hasStubSentinel r.2 ∨ ∃ ks, em.func s ks = .ok r.2) ∧
    (∀ (s : Session) (em : Emitter),
      (∀ ks, ∃ msg, em.func s ks = .error msg) →
      ∀ r ∈ runEmitter _ENUMS s em, hasStubSentinel r.2) ∧
    (∀ (env : ImportEnv) (scope : String) (s : Session),
      scope = "proc" ∨ scope = "sys" ∨ scope = "commands" →
      ∃ outs, run_scope env scope s = .ok outs) := by
  have hgen : ∀ (s : Session) (em : Emitter) (r : String × String),
      r ∈ runEmitter _ENUMS s em →
      hasStubSentinel r.2 ∨ ∃ ks, em.func s ks = .ok r.2 := by
    intro s em r hr
    obtain ⟨p, en, fn⟩ := em
    cases en with
    | none =>
        have hr2 : r ∈ fixedRun s ⟨p, none, fn⟩ := hr
        rcases mem_fixedRun hr2 with h | h
        · exact Or.inl h
        · exact Or.inr ⟨[], h⟩
    | some name =>
        by_cases hname : name = ""
        · subst hname
          have hr2 : r ∈ fixedRun s ⟨p, some "", fn⟩ := hr
          rcases mem_fixedRun hr2 with h | h
          · exact Or.inl h
          · exact Or.inr ⟨[], h⟩
        · cases hl : lookupEnum _ENUMS name with
          | none =>
              rw [runEmitter_missing hname hl] at hr
              rw [List.mem_singleton] at hr
              rw [hr]
              exact Or.inl (format_stub_sentinel _)
          | some f =>
              rw [runEmitter_templated hname hl] at hr
              rw [List.mem_map] at hr
              obtain ⟨ks, _, hk⟩ := hr
              rcases keyRecord_stub_or_ok s ⟨p, some name, fn⟩ ks with h | h
              · rw [← hk]
                exact Or.inl h
              · exact Or.inr ⟨ks, by rw [← hk]; exact h⟩
  have hfail : ∀ (s : Session) (em : Emitter),
      (∀ ks, ∃ msg, em.func s ks = .error msg) →
      ∀ r ∈ runEmitter _ENUMS s em, hasStubSentinel r.2 := by
    intro s em hf r hr
    rcases hgen s em r hr with h | ⟨ks, hok⟩
    · exact h
    · obtain ⟨msg, herr⟩ := hf ks
      rw [herr] at hok
      cases hok
  refine ⟨format_stub_sentinel, hgen, hfail, ?_⟩
  intro env scope s hv
  refine ⟨((_iter_submodules (env scope)).flatMap
    _collect_emitters_from_module).flatMap (runEmitter _ENUMS s), ?_⟩
  simp [run_scope, list_emitters, hv]

/-- An emitter whose body always raises. -/
def emAlwaysFail : Emitter := ⟨"proc/kcore", none, fun _ _ => .error "boom"⟩

/-- Witness for C7: the stub for an arbitrary reason is
sentinel-prefixed, and the always-raising fixed emitter produces only
sentinel-prefixed records. -/
theorem claim_C7_witness :
    hasStubSentinel (_format_stub "x") ∧
    (∀ r ∈ runEmitter _ENUMS session0 emAlwaysFail, hasStubSentinel r.2) :=
  ⟨claim_C7_stub_sentinel.1 "x",
    claim_C7_stub_sentinel.2.2.1 session0 emAlwaysFail
      (fun _ => ⟨"boom", rfl⟩)⟩

/-- Claim C1: for every valid scope and session, run_scope succeeds and
returns the per-emitter record blocks in discovery order (so no
emitter's or key's failure can remove or alter another's records); each
block has exactly one record for a fixed-path emitter — whatever its
body does — and exactly one record per enumerated key-set for a
templated emitter, with a failed body or key converted in place to a
stub record. -/
theorem claim_C1_record_counts (env : ImportEnv) (scope : String)
    (s : Session)
    (hv : scope = "proc" ∨ scope = "sys" ∨ scope = "commands") :
    ∃ ems, list_emitters env scope = .ok ems ∧
      run_scope env scope s = .ok (ems.flatMap (runEmitter _ENUMS s)) ∧
      (∀ em ∈ ems,
        (runEmitter _ENUMS s em).length = emitterCount _ENUMS s em) ∧
      (∀ em ∈ ems, ∀ name f, em.enumerator = some name → name ≠ "" →
        lookupEnum _ENUMS name = some f →
        runEmitter _ENUMS s em = (f s).map (keyRecord s em)) ∧
      (∀ em ∈ ems, ∀ ks e, em.func s ks = .error e →
        keyRecord s em ks =
          (_safe_format_path em.path ks,
            _format_stub ("emitter error: " ++ e))) := by
  have hok : list_emitters env scope =
      .ok ((_iter_submodules (env scope)).flatMap
        _collect_emitters_from_module) := by
    simp [list_emitters, hv]
  refine ⟨_, hok, ?_, ?_, ?_, ?_⟩
  · simp [run_scope, hok]
  · intro em _
    exact runEmitter_length _ _ _
  · intro em _ name f hn hne hl
    obtain ⟨p, en, fn⟩ := em
    simp only at hn
    subst hn
    simp [runEmitter, hne, hl]
  · intro em _ ks e he
    simp [keyRecord, he]

/-- Body of a successful fixed-path emitter. -/
def bodyCmdline : EmitterBody := fun _ _ => .ok "BOOT_IMAGE=vmlinuz"

/-- Body of a fixed-path emitter that always raises. -/
def bodyKcore : EmitterBody := fun _ _ => .error "not reconstructable"

/-- Body of a per-pid emitter that raises for pid 2 only. -/
def bodyStatus : EmitterBody := fun _ ks =>
  if lookupKey ks "pid" == some 2 then .error "bad task"
  else .ok "Name: x"

/-- Body of an emitter referencing an unknown enumerator. -/
def bodyMissing : EmitterBody := fun _ _ => .ok "unused"

/-- A module with two fixed-path emitters, one failing. -/
def modProcA : List ModuleAttr :=
  [emits "proc/cmdline" bodyCmdline, emits "proc/kcore" bodyKcore]

/-- A module with a per-pid emitter and a missing-enumerator emitter. -/
def modProcB : List ModuleAttr :=
  [emits_many "proc/\x7bpid\x7d/status" "enumerate_pids" bodyStatus,
   emits_many "proc/x/\x7bq\x7d" "enumerate_threads" bodyMissing]

/-- An environment whose proc scope has the two modules above plus one
whose import raises. -/
def env1 : ImportEnv := fun sc =>
  if sc = "proc" then some [.ok modProcA, .error (), .ok modProcB]
  else none

/-- A session whose preferred pid strategy yields pids 1 and 2. -/
def s1 : Session :=
  ⟨some 100, .ok [some 2, some 1, some 2], .error (), none, .error (),
    none⟩

/-- Witness for C1 on a populated scope: the record count and structure
claims instantiate, and the run evaluates to the expected five records —
one per fixed emitter (the second a stub), one per enumerated pid (the
second a stub), and one for the missing enumerator. -/
theorem claim_C1_witness :
    (∃ ems, list_emitters env1 "proc" = .ok ems ∧
      run_scope env1 "proc" s1 = .ok (ems.flatMap (runEmitter _ENUMS s1)) ∧
      (∀ em ∈ ems,
        (runEmitter _ENUMS s1 em).length = emitterCount _ENUMS s1 em) ∧
      (∀ em ∈ ems, ∀ name f, em.enumerator = some name → name ≠ "" →
        lookupEnum _ENUMS name = some f →
        runEmitter _ENUMS s1 em = (f s1).map (keyRecord s1 em)) ∧
      (∀ em ∈ ems, ∀ ks e, em.func s1 ks = .error e →
        keyRecord s1 em ks =
          (_safe_format_path em.path ks,
            _format_stub ("emitter error: " ++ e)))) ∧
    run_scope env1 "proc" s1 = .ok
      [("proc/cmdline", "BOOT_IMAGE=vmlinuz"),
       ("proc/kcore",
         _format_stub ("emitter failure: " ++ "not reconstructable")),
       ("proc/1/status", "Name: x"),
       ("proc/2/status", _format_stub ("emitter error: " ++ "bad task")),
       ("proc/x/_q_", _format_stub (missingEnumMsg "enumerate_threads"))] :=
  ⟨claim_C1_record_counts env1 "proc" s1 (Or.inl rfl), by rfl⟩

/-- Claim C6 (amended): a templated emitter whose enumerator name is
nonempty and absent from the enumerator table does not make run_scope
raise: it contributes exactly one stub record, at its path template with
brace characters replaced, whose sentinel-prefixed content names the
missing enumerator, and the remaining emitters of the scope are still
processed. -/
theorem claim_C6_missing_enumerator (env : ImportEnv) (scope : String)
    (s : Session) (pre post : List Emitter) (em : Emitter) (name : String)
    (hl : list_emitters env scope = .ok (pre ++ em :: post))
    (he : em.enumerator = some name) (hne : name ≠ "")
    (hm : lookupEnum _ENUMS name = none) :
    runEmitter _ENUMS s em =
      [(replaceBraces em.path, _format_stub (missingEnumMsg name))] ∧
    run_scope env scope s = .ok
      (pre.flatMap (runEmitter _ENUMS s)
        ++ (replaceBraces em.path, _format_stub (missingEnumMsg name))
          :: post.flatMap (runEmitter _ENUMS s)) ∧
    hasStubSentinel (_format_stub (missingEnumMsg name)) := by
  have hre : runEmitter _ENUMS s em =
      [(replaceBraces em.path, _format_stub (missingEnumMsg name))] := by
    obtain ⟨p, en, fn⟩ := em
    simp only at he
    subst he
    simp [runEmitter, hne, hm]
  refine ⟨hre, ?_, format_stub_sentinel _⟩
  simp [run_scope, hl, hre]

/-- Body used by the missing-enumerator witness emitter. -/
def bodyMissW : EmitterBody := fun _ _ => .ok "t"

/-- Body used by the trailing fixed witness emitter. -/
def bodyVersionW : EmitterBody := fun _ _ => .ok "v"

/-- The witness emitter whose enumerator is unknown. -/
def emMissW : Emitter :=
  ⟨"proc/x/\x7bq\x7d", some "enumerate_threads", bodyMissW⟩

/-- The witness emitter that follows it in the scope. -/
def emGoodW : Emitter := ⟨"proc/version", none, bodyVersionW⟩

/-- A proc scope declaring the two witness emitters in one module. -/
def envC6w : ImportEnv := fun sc =>
  if sc = "proc" then
    some [.ok [emits_many "proc/x/\x7bq\x7d" "enumerate_threads" bodyMissW,
      emits "proc/version" bodyVersionW]]
  else none

/-- Witness for the amended C6: the unknown-enumerator emitter yields
exactly its stub and the following emitter is still processed. -/
theorem claim_C6_witness :
    runEmitter _ENUMS session0 emMissW =
      [(replaceBraces emMissW.path,
        _format_stub (missingEnumMsg "enumerate_threads"))] ∧
    run_scope envC6w "proc" session0 = .ok
      (([] : List Emitter).flatMap (runEmitter _ENUMS session0)
        ++ (replaceBraces emMissW.path,
            _format_stub (missingEnumMsg "enumerate_threads"))
          :: [emGoodW].flatMap (runEmitter _ENUMS session0)) ∧
    hasStubSentinel (_format_stub (missingEnumMsg "enumerate_threads")) :=
  claim_C6_missing_enumerator envC6w "proc" session0 [] [emGoodW] emMissW
    "enumerate_threads" rfl rfl (by decide) rfl

/-- The body of the emitter registered under the empty enumerator
name. -/
def emptyNameBody : EmitterBody := fun _ _ => .ok "text"

/-- A proc scope declaring one templated emitter whose enumerator name is
the empty string. -/
def envC6c : ImportEnv := fun sc =>
  if sc = "proc" then
    some [.ok [emits_many "a/\x7bx\x7d" "" emptyNameBody]]
  else none

/-- Counterexample to C6 as stated: an emitter registered via emits_many
with the empty enumerator name has an enumerator name absent from the
table, yet `if em.enumerator:` is falsy for the empty string, so
run_scope takes the fixed-path branch: the single record keeps the braces
in its path and carries the body's genuine output — no stub describing a
missing enumerator is appended. -/
theorem claim_C6_counterexample :
    (∃ em, list_emitters envC6c "proc" = .ok [em] ∧
      em.enumerator = some "" ∧ lookupEnum _ENUMS "" = none) ∧
    run_scope envC6c "proc" session0 = .ok [("a/\x7bx\x7d", "text")] ∧
    ¬ hasStubSentinel "text" := by
  refine ⟨⟨⟨"a/\x7bx\x7d", some "", emptyNameBody⟩, rfl, rfl, rfl⟩,
    by rfl, ?_⟩
  exact not_sentinel_of_short "text" (by decide)

/-- Claim C8: when a module under a scope's namespace fails to import
during discovery, it is skipped and discovery proceeds: the emitters of
every importable module of the scope still appear in the result of
list_emitters. -/
theorem claim_C8_import_isolation (env : ImportEnv) (scope : String)
    (mods : List ModuleImport)
    (hv : scope = "proc" ∨ scope = "sys" ∨ scope = "commands")
    (hp : env scope = some mods) :
    ∃ ems, list_emitters env scope = .ok ems ∧
      ∀ attrs, (.ok attrs : ModuleImport) ∈ mods →
        ∀ em ∈ _collect_emitters_from_module attrs, em ∈ ems := by
  refine ⟨(_iter_submodules (env scope)).flatMap
    _collect_emitters_from_module, by simp [list_emitters, hv], ?_⟩
  intro attrs hmem em hem
  refine List.mem_flatMap.mpr ⟨attrs, ?_, hem⟩
  rw [hp]
  unfold _iter_submodules
  exact List.mem_filterMap.mpr ⟨.ok attrs, hmem, rfl⟩

/-- A sys-scope module whose lone emitter succeeds. -/
def modGoodC8 : List ModuleAttr :=
  [emits "sys/kernel/uevent_seqnum" (fun _ _ => .ok "1")]

/-- A sys scope whose first module fails to import. -/
def modsC8 : List ModuleImport := [.error (), .ok modGoodC8]

/-- The environment for the C8 witness. -/
def envC8 : ImportEnv := fun sc =>
  if sc = "sys" then some modsC8 else none

/-- Witness for C8: the broken first module does not abort discovery of
the importable second module. -/
theorem claim_C8_witness :
    ∃ ems, list_emitters envC8 "sys" = .ok ems ∧
      ∀ attrs, (.ok attrs : ModuleImport) ∈ modsC8 →
        ∀ em ∈ _collect_emitters_from_module attrs, em ∈ ems :=
  claim_C8_import_isolation envC8 "sys" modsC8 (Or.inr (Or.inl rfl)) rfl

/-- Claim C9: an OSError from a plugin's collect whose errno is a
filesystem-exhaustion or read-only condition (ENOSPC or EROFS)
terminates the whole run immediately with a non-zero exit status — no
later plugin runs and the records already written (including the failing
plugin's partial writes) are preserved; any other Exception from collect
is logged and the loop proceeds to the next plugin. -/
theorem claim_C9_fatal_fs (p : PluginRun) (rest : List PluginRun)
    (acc r1 r2 : List (String × String)) (e : PyExc)
    (hc : p.check_enabled = .ok true)
    (hs : p.setupRun = (r1, none))
    (hco : p.collectRun = (r2, some (.exc e))) :
    ((∃ en msg, e = .osError en msg ∧ en ∈ fatal_fs_errors) →
      _run_plugins (p :: rest) acc = (acc ++ r1 ++ r2, .fatalExit 1)) ∧
    ((∀ en msg, e = .osError en msg → en ∉ fatal_fs_errors) →
      _run_plugins (p :: rest) acc = _run_plugins rest (acc ++ r1 ++ r2)) := by
  constructor
  · rintro ⟨en, msg, rfl, hmem⟩
    simp [_run_plugins, hc, hs, hco, hmem]
  · intro hnf
    cases e with
    | osError en msg =>
        have h := hnf en msg rfl
        simp [_run_plugins, hc, hs, hco, h]
    | other msg =>
        simp [_run_plugins, hc, hs, hco]

/-- A plugin whose collect writes one record and then raises ENOSPC. -/
def pFatal : PluginRun :=
  ⟨"kernel_info", .ok true, ([("plugins/kernel_info/a", "x")], none),
    ([("plugins/kernel_info/b", "y")],
      some (.exc (.osError 28 "No space left on device")))⟩

/-- A plugin that would write a record if it ran. -/
def pNever : PluginRun :=
  ⟨"vmcore_procfs", .ok true, ([], none),
    ([("plugins/vmcore_procfs/c", "z")], none)⟩

/-- Witness for C9: the fatal ENOSPC terminates the run with exit code 1,
the prior and partial records are preserved, and the following plugin
never runs (its record is absent). -/
theorem claim_C9_witness :
    _run_plugins [pFatal, pNever] [("prior", "p")] =
      ([("prior", "p")] ++ [("plugins/kernel_info/a", "x")]
        ++ [("plugins/kernel_info/b", "y")], .fatalExit 1) :=
  (claim_C9_fatal_fs pFatal [pNever] [("prior", "p")]
    [("plugins/kernel_info/a", "x")] [("plugins/kernel_info/b", "y")]
    (.osError 28 "No space left on device") rfl rfl rfl).1
    ⟨28, "No space left on device", rfl, by decide⟩

end VmcoreReport

